import Mathlib

/-!
Verification of the client-side GIF re-encoding pipeline of the
Veo-3.1-Type-Motion repository (`src/utils.ts`, `createGifFromVideo`) and of
the polling helper `pollForVideo` (`src/unnamed/part_000`).

The browser environment (the `<video>` element, the 2d canvas context, the
`seeked` event, cross-origin tainting) is modelled as an explicit record of
observable behaviours `VideoEnv`; the imported `gifenc` library functions
`quantize` and `applyPalette` are abstract function parameters, exactly as
they are opaque imports in the source.  All numeric JS values are modelled
as rationals (`ℚ`); `NaN` for `video.duration` is modelled as `Option.none`.
-/

namespace TypeMotion

/-- A raw RGBA pixel buffer (`ctx.getImageData(...).data`), abstracted as a
list of byte values. -/
abbrev PixelBuf := List ℕ

/-- A palette entry as produced by `quantize` (an RGB triple in gifenc),
abstracted as a list of channel values. -/
abbrev Color := List ℕ

/-- An ordered palette, as returned by `quantize(data, 256)`. -/
abbrev Palette := List Color

/-- An index buffer, as returned by `applyPalette(data, palette)`. -/
abbrev IndexBuf := List ℕ

/-- One frame as appended by `gif.writeFrame(index, width, height,
{ palette, delay })` in `src/utils.ts` line 107: the index buffer, the
dimensions, the per-frame palette and the per-frame delay (ms). -/
structure Frame where
  index : IndexBuf
  width : ℕ
  height : ℤ
  palette : Palette
  delay : ℚ
deriving Repr, DecidableEq

/-- The errors `createGifFromVideo` can reject with:
`loadFailure` is the `new Error("Video load failed")` of line 119 fired by
`video.onerror`; `securityFailure` is the `SecurityError` DOMException the
browser throws from `ctx.getImageData` on a canvas tainted by a
cross-origin video (caught at line 113 and re-rejected at line 115);
`noContext` is the `new Error("Could not get canvas context")` of line 71. -/
inductive GifError where
  | loadFailure
  | securityFailure
  | noContext
deriving Repr, DecidableEq

/-- Observable behaviour of the browser/video for one conversion run:
every input `createGifFromVideo` reads from its environment.
`loadFails` — whether `video.onerror` fires instead of
`onloadedmetadata`; `durationRaw` — `video.duration` (`none` = `NaN`);
`videoWidth`/`videoHeight` — the clip's intrinsic dimensions;
`ctxAvailable` — whether `canvas.getContext('2d')` returns non-null;
`tainted` — whether cross-origin policy blocks pixel extraction, making
`getImageData` throw; `seekFires i` — whether the `seeked` event for
frame `i` fires within the 1000 ms timeout; `pixelsAt t` — the downscaled
RGBA content presented after a completed seek to timestamp `t`;
`initialPresented` — the content presented before any completed seek. -/
structure VideoEnv where
  loadFails : Bool
  durationRaw : Option ℚ
  videoWidth : ℕ
  videoHeight : ℕ
  ctxAvailable : Bool
  tainted : Bool
  seekFires : ℕ → Bool
  pixelsAt : ℚ → PixelBuf
  initialPresented : PixelBuf

/-- JS `x || 5` on `video.duration` (line 57): `NaN` and `0` are falsy. -/
def jsDurationOr5 : Option ℚ → ℚ
  | Option.none => 5
  | Option.some d => if d = 0 then 5 else d

/-- The fixed target output width, line 58. -/
def targetWidth : ℕ := 400

/-- The fixed frame rate, line 63. -/
def fps : ℕ := 10

/-- Line 61: `if (height % 2 !== 0) height -= 1`. -/
def evenize (h : ℤ) : ℤ :=
  if h % 2 ≠ 0 then h - 1 else h

/-- Lines 60-61: `height = Math.floor((videoHeight / videoWidth) * width)`,
then `if (height % 2 !== 0) height -= 1`. -/
def outHeight (videoWidth videoHeight : ℕ) : ℤ :=
  evenize ⌊((videoHeight : ℚ) / (videoWidth : ℚ)) * (targetWidth : ℚ)⌋

/-- The per-frame loop, lines 76-108.  For each index `i` (with `fuel`
iterations remaining): the seek to `i / fps` either completes (`seekFires i`,
the presented content becomes `pixelsAt (i / fps)`) or times out after
1000 ms (the handler at lines 85-89 resolves anyway and the previously
presented content `cur` is used — a possibly duplicate frame).  Then
`drawImage`/`getImageData` extract the presented pixels — throwing a
`SecurityError` if the canvas is tainted — and the frame is quantized with
its own call `quantize(data, 256)`, indexed with `applyPalette`, and
appended with delay `1000 / fps`. -/
def sampleFrames (quantize : PixelBuf → ℕ → Palette)
    (applyPalette : PixelBuf → Palette → IndexBuf)
    (env : VideoEnv) (w : ℕ) (h : ℤ) :
    ℕ → ℕ → PixelBuf → Except GifError (List Frame)
  | _, 0, _ => Except.ok []
  | i, fuel + 1, cur =>
    let cur' : PixelBuf :=
      if env.seekFires i then env.pixelsAt ((i : ℚ) / (fps : ℚ)) else cur
    if env.tainted then Except.error GifError.securityFailure
    else
      let palette := quantize cur' 256
      let idx := applyPalette cur' palette
      let frame : Frame := ⟨idx, w, h, palette, (1000 : ℚ) / (fps : ℚ)⟩
      Except.map (fun rest => frame :: rest)
        (sampleFrames quantize applyPalette env w h (i + 1) fuel cur')

/-- `createGifFromVideo` (`src/utils.ts` lines 43-122) as a pure function of
the environment.  If `video.onerror` fires, the promise rejects with the
load-failure error (line 119).  Otherwise `onloadedmetadata` runs the body:
duration defaulting (line 57), dimension derivation (lines 58-61), the
context-null check (line 71), `totalFrames = Math.floor(duration * fps)`
(line 64), the frame loop, and `gif.finish()` / `resolve(blob)` — the
finalized container is modelled as the ordered list of appended frames. -/
def createGifFromVideo (quantize : PixelBuf → ℕ → Palette)
    (applyPalette : PixelBuf → Palette → IndexBuf)
    (env : VideoEnv) : Except GifError (List Frame) :=
  if env.loadFails then Except.error GifError.loadFailure
  else
    let duration := jsDurationOr5 env.durationRaw
    let w := targetWidth
    let h := outHeight env.videoWidth env.videoHeight
    if ¬ env.ctxAvailable then Except.error GifError.noContext
    else
      let totalFrames : ℕ := (⌊duration * (fps : ℚ)⌋).toNat
      sampleFrames quantize applyPalette env w h 0 totalFrames
        env.initialPresented

/-- The number of frames in the finished container, `Option.none` when the
conversion rejected. -/
def frameCount (r : Except GifError (List Frame)) : Option ℕ :=
  r.toOption.map List.length

/-- The list of per-frame palette sizes of the finished container,
`Option.none` when the conversion rejected. -/
def paletteSizes (r : Except GifError (List Frame)) : Option (List ℕ) :=
  r.toOption.map (List.map (fun f => f.palette.length))

/-- `allFrames r p`: the conversion succeeded and every appended frame
satisfies `p`. -/
def allFrames (r : Except GifError (List Frame)) (p : Frame → Prop) : Prop :=
  match r with
  | Except.ok fs => ∀ f ∈ fs, p f
  | Except.error _ => False

/-! ### Helper lemmas about the frame loop -/

theorem frameCount_map_cons (f : Frame) (r : Except GifError (List Frame)) :
    frameCount (Except.map (fun rest => f :: rest) r)
      = (frameCount r).map (· + 1) := by
  cases r <;> simp [frameCount, Except.map, Except.toOption]

theorem paletteSizes_map_cons (f : Frame) (r : Except GifError (List Frame)) :
    paletteSizes (Except.map (fun rest => f :: rest) r)
      = (paletteSizes r).map (fun l => f.palette.length :: l) := by
  cases r <;> simp [paletteSizes, Except.map, Except.toOption]

theorem allFrames_map_cons (f : Frame) (r : Except GifError (List Frame))
    (p : Frame → Prop) :
    allFrames (Except.map (fun rest => f :: rest) r) p ↔
      (p f ∧ allFrames r p) := by
  cases r <;> simp [allFrames, Except.map]

/-- With readable pixels, the loop never fails and appends exactly one frame
per iteration. -/
theorem sampleFrames_frameCount (q : PixelBuf → ℕ → Palette)
    (a : PixelBuf → Palette → IndexBuf) (env : VideoEnv) (w : ℕ) (h : ℤ)
    (hT : env.tainted = false) :
    ∀ (fuel i : ℕ) (cur : PixelBuf),
      frameCount (sampleFrames q a env w h i fuel cur)
        = Option.some fuel := by
  intro fuel
  induction fuel with
  | zero => intro i cur; simp [sampleFrames, frameCount, Except.toOption]
  | succ n ih =>
    intro i cur
    simp only [sampleFrames, hT, Bool.false_eq_true, if_false]
    rw [frameCount_map_cons, ih]
    rfl

/-- Every frame the loop appends has the shape written at line 107:
dimensions `w × h`, delay `1000 / fps`, a palette `quantize d 256` freshly
computed from that frame's own pixel data `d`, and the matching index
buffer `applyPalette d palette`. -/
theorem sampleFrames_allFrames (q : PixelBuf → ℕ → Palette)
    (a : PixelBuf → Palette → IndexBuf) (env : VideoEnv) (w : ℕ) (h : ℤ)
    (p : Frame → Prop)
    (hp : ∀ d : PixelBuf,
      p ⟨a d (q d 256), w, h, q d 256, (1000 : ℚ) / (fps : ℚ)⟩)
    (hT : env.tainted = false) :
    ∀ (fuel i : ℕ) (cur : PixelBuf),
      allFrames (sampleFrames q a env w h i fuel cur) p := by
  intro fuel
  induction fuel with
  | zero => intro i cur; simp [sampleFrames, allFrames]
  | succ n ih =>
    intro i cur
    simp only [sampleFrames, hT, Bool.false_eq_true, if_false]
    rw [allFrames_map_cons]
    exact ⟨hp _, ih _ _⟩

/-- When the seek-completed signal never fires, the presented content never
advances: every appended frame is rendered from the initially presented
pixel buffer. -/
theorem sampleFrames_noSeek (q : PixelBuf → ℕ → Palette)
    (a : PixelBuf → Palette → IndexBuf) (env : VideoEnv) (w : ℕ) (h : ℤ)
    (hs : ∀ j, env.seekFires j = false) (hT : env.tainted = false) :
    ∀ (fuel i : ℕ) (cur : PixelBuf),
      allFrames (sampleFrames q a env w h i fuel cur)
        (fun f => f.palette = q cur 256 ∧ f.index = a cur (q cur 256)) := by
  intro fuel
  induction fuel with
  | zero => intro i cur; simp [sampleFrames, allFrames]
  | succ n ih =>
    intro i cur
    simp only [sampleFrames, hs, hT, Bool.false_eq_true, if_false]
    rw [allFrames_map_cons]
    exact ⟨⟨rfl, rfl⟩, ih _ _⟩

/-- With unreadable (cross-origin tainted) pixels, the very first iteration
of the loop fails with the security error. -/
theorem sampleFrames_tainted (q : PixelBuf → ℕ → Palette)
    (a : PixelBuf → Palette → IndexBuf) (env : VideoEnv) (w : ℕ) (h : ℤ)
    (hT : env.tainted = true) (fuel i : ℕ) (cur : PixelBuf)
    (hf : fuel ≠ 0) :
    sampleFrames q a env w h i fuel cur
      = Except.error GifError.securityFailure := by
  cases fuel with
  | zero => exact absurd rfl hf
  | succ n => simp [sampleFrames, hT]

/-- Two runs whose quantizers agree on palette size produce frame-for-frame
equal palette-size sequences. -/
theorem sampleFrames_paletteSizes (q1 q2 : PixelBuf → ℕ → Palette)
    (a1 a2 : PixelBuf → Palette → IndexBuf) (env : VideoEnv) (w : ℕ) (h : ℤ)
    (hT : env.tainted = false)
    (hq : ∀ d, (q1 d 256).length = (q2 d 256).length) :
    ∀ (fuel i : ℕ) (cur : PixelBuf),
      paletteSizes (sampleFrames q1 a1 env w h i fuel cur)
        = paletteSizes (sampleFrames q2 a2 env w h i fuel cur) := by
  intro fuel
  induction fuel with
  | zero => intro i cur; simp [sampleFrames]
  | succ n ih =>
    intro i cur
    simp only [sampleFrames, hT, Bool.false_eq_true, if_false]
    rw [paletteSizes_map_cons, paletteSizes_map_cons, ih]
    cases sampleFrames q2 a2 env w h (i + 1) n
        (if env.seekFires i then env.pixelsAt ((i : ℚ) / (fps : ℚ)) else cur)
      with
    | error e => simp [paletteSizes, Except.toOption]
    | ok fs => simp [paletteSizes, Except.toOption, hq]

/-- Unfolding `createGifFromVideo` on a clip that loads with a usable
canvas context. -/
theorem createGifFromVideo_eq (q : PixelBuf → ℕ → Palette)
    (a : PixelBuf → Palette → IndexBuf) (env : VideoEnv)
    (hload : env.loadFails = false) (hctx : env.ctxAvailable = true) :
    createGifFromVideo q a env
      = sampleFrames q a env targetWidth
          (outHeight env.videoWidth env.videoHeight) 0
          (⌊jsDurationOr5 env.durationRaw * (fps : ℚ)⌋.toNat)
          env.initialPresented := by
  simp [createGifFromVideo, hload, hctx]

theorem evenize_even (h : ℤ) : 2 ∣ evenize h := by
  unfold evenize
  split <;> omega

theorem paletteSizes_ne_none (r : Except GifError (List Frame)) (n : ℕ)
    (h : frameCount r = Option.some n) :
    paletteSizes r ≠ Option.none := by
  cases r <;> simp [frameCount, paletteSizes, Except.toOption] at *

/-! ### The polling helper (`src/unnamed/part_000`, lines 112-126) -/

/-- Failure of `pollForVideo`: `timedOut` is the
`new Error("Video generation timed out.")` of line 120; `fuelExhausted` is
an artefact of the fueled model, proved unreachable. -/
inductive PollError where
  | timedOut
  | fuelExhausted
deriving Repr, DecidableEq

/-- `MAX_WAIT_TIME = 180000`, line 116. -/
def MAX_WAIT_TIME : ℕ := 180000

/-- The `sleep(5000)` between polls, line 122. -/
def pollIntervalMs : ℕ := 5000

/-- The polling loop of `pollForVideo`, lines 118-124, with the SDK's
operation states abstracted as the done-flag sequence `done : ℕ → Bool`
(`done k` is `op.done` after `k` calls to `getVideosOperation`) and time
modelled as 5000 ms per sleep (elapsed before the `k`-th timeout check is
`pollIntervalMs * k`).  The loop body checks `op.done`, then the elapsed
time against `MAX_WAIT_TIME`, then sleeps and re-fetches the operation.
`fuel` bounds the recursion; 38 iterations always suffice because the
timeout check throws once `5000 * k > 180000`, i.e. from `k = 37` on. -/
def pollForVideoAux (done : ℕ → Bool) : ℕ → ℕ → Except PollError ℕ
  | _, 0 => Except.error PollError.fuelExhausted
  | k, fuel + 1 =>
    if done k then Except.ok k
    else if pollIntervalMs * k > MAX_WAIT_TIME then
      Except.error PollError.timedOut
    else pollForVideoAux done (k + 1) fuel

/-- `pollForVideo` (lines 112-126): poll from the initial operation with
enough fuel for the whole 180 s window. -/
def pollForVideo (done : ℕ → Bool) : Except PollError ℕ :=
  pollForVideoAux done 0 38

theorem pollForVideoAux_spec (done : ℕ → Bool) :
    ∀ (fuel k : ℕ), k ≤ 37 → 37 < fuel + k →
      (∀ j, pollForVideoAux done k fuel = Except.ok j →
          done j = true ∧ j ≤ 37)
      ∧ ((∀ j, j ≤ 37 → done j = false) →
          pollForVideoAux done k fuel = Except.error PollError.timedOut)
      ∧ pollForVideoAux done k fuel ≠ Except.error PollError.fuelExhausted := by
  intro fuel
  induction fuel with
  | zero => intro k hk hfk; omega
  | succ n ih =>
    intro k hk hfk
    by_cases hdone : done k = true
    · have hres : pollForVideoAux done k (n + 1) = Except.ok k := by
        simp [pollForVideoAux, hdone]
      refine ⟨?_, ?_, ?_⟩
      · intro j hj
        rw [hres] at hj
        injection hj with h
        subst h
        exact ⟨hdone, hk⟩
      · intro hall
        exact absurd hdone (by simp [hall k hk])
      · rw [hres]
        exact fun h => Except.noConfusion h
    · by_cases htime : pollIntervalMs * k > MAX_WAIT_TIME
      · have hres : pollForVideoAux done k (n + 1)
            = Except.error PollError.timedOut := by
          simp [pollForVideoAux, hdone, htime]
        refine ⟨?_, fun _ => hres, ?_⟩
        · intro j hj
          rw [hres] at hj
          exact Except.noConfusion hj
        · rw [hres]
          intro h
          injection h with h2
          exact PollError.noConfusion h2
      · have hres : pollForVideoAux done k (n + 1)
            = pollForVideoAux done (k + 1) n := by
          simp [pollForVideoAux, hdone, htime]
        have hk36 : k ≤ 36 := by
          simp only [pollIntervalMs, MAX_WAIT_TIME] at htime
          omega
        rw [hres]
        exact ih (k + 1) (by omega) (by omega)

/-! ### Concrete environments and library stand-ins for witnesses -/

/-- A concrete 2-second 320×180 clip that loads, seeks normally and is
CORS-readable (the end-to-end scenario of spec §8). -/
def envA : VideoEnv :=
  ⟨false, Option.some 2, 320, 180, true, false, fun _ => true,
    fun _ => [], []⟩

/-- `envA` but the load-error signal fires before metadata resolves. -/
def envLoadFail : VideoEnv :=
  ⟨true, Option.some 2, 320, 180, true, false, fun _ => true,
    fun _ => [], []⟩

/-- `envA` but served cross-origin without CORS: pixel extraction is
blocked. -/
def envTainted : VideoEnv :=
  ⟨false, Option.some 2, 320, 180, true, true, fun _ => true,
    fun _ => [], []⟩

/-- `envA` but the clip reports duration `NaN`. -/
def envNaN : VideoEnv :=
  ⟨false, Option.none, 320, 180, true, false, fun _ => true,
    fun _ => [], []⟩

/-- Trivial quantizer stand-in used to instantiate witnesses. -/
def qTriv : PixelBuf → ℕ → Palette := fun _ _ => []

/-- Trivial indexer stand-in used to instantiate witnesses. -/
def aTriv : PixelBuf → Palette → IndexBuf := fun _ _ => []

/-! ### The claims -/

/-- C1: for every valid source clip — it loads, reports duration `D > 0`,
its pixels are readable and a 2d context is available — `createGifFromVideo`
appends exactly `⌊D * fps⌋` frames (`fps = 10`) to the output container:
the loop runs `totalFrames = ⌊duration * fps⌋` iterations and writes one
frame per iteration. -/
theorem c1_frame_count (q : PixelBuf → ℕ → Palette)
    (a : PixelBuf → Palette → IndexBuf) (env : VideoEnv) (D : ℚ)
    (hload : env.loadFails = false) (hctx : env.ctxAvailable = true)
    (htaint : env.tainted = false) (hdur : env.durationRaw = Option.some D)
    (hD : 0 < D) :
    frameCount (createGifFromVideo q a env)
        = Option.some (⌊D * (fps : ℚ)⌋.toNat)
      ∧ ((⌊D * (fps : ℚ)⌋.toNat : ℤ) = ⌊D * (fps : ℚ)⌋) := by
  have hjs : jsDurationOr5 env.durationRaw = D := by
    rw [hdur]
    simp [jsDurationOr5, hD.ne']
  refine ⟨?_, Int.toNat_of_nonneg (Int.floor_nonneg.mpr
    (mul_nonneg hD.le (Nat.cast_nonneg fps)))⟩
  rw [createGifFromVideo_eq q a env hload hctx, hjs,
    sampleFrames_frameCount q a env _ _ htaint]

/-- Instance of `c1_frame_count`: the concrete 2-second clip gives 20
frames. -/
theorem c1_frame_count_witness :
    frameCount (createGifFromVideo qTriv aTriv envA)
        = Option.some (⌊(2 : ℚ) * (fps : ℚ)⌋.toNat)
      ∧ ((⌊(2 : ℚ) * (fps : ℚ)⌋.toNat : ℤ) = ⌊(2 : ℚ) * (fps : ℚ)⌋) :=
  c1_frame_count qTriv aTriv envA 2 rfl rfl rfl rfl (by norm_num)

/-- C2: a per-frame seek timeout never shrinks the frame sequence and is
never surfaced as an error: however the per-frame seek-completed signal
behaves (the hypotheses do not constrain `seekFires`), the conversion
succeeds with the full frame count; and on the clip whose signal never
fires, every index still receives a frame — a duplicate rendered from the
initially presented content. -/
theorem c2_seek_timeout (q : PixelBuf → ℕ → Palette)
    (a : PixelBuf → Palette → IndexBuf) (env : VideoEnv) (D : ℚ)
    (hload : env.loadFails = false) (hctx : env.ctxAvailable = true)
    (htaint : env.tainted = false) (hdur : env.durationRaw = Option.some D)
    (hD : 0 < D) :
    frameCount (createGifFromVideo q a env)
        = Option.some (⌊D * (fps : ℚ)⌋.toNat)
      ∧ allFrames
          (createGifFromVideo q a { env with seekFires := fun _ => false })
          (fun f => f.palette = q env.initialPresented 256
            ∧ f.index = a env.initialPresented (q env.initialPresented 256))
      := by
  have hjs : jsDurationOr5 env.durationRaw = D := by
    rw [hdur]
    simp [jsDurationOr5, hD.ne']
  constructor
  · rw [createGifFromVideo_eq q a env hload hctx, hjs,
      sampleFrames_frameCount q a env _ _ htaint]
  · rw [createGifFromVideo_eq q a { env with seekFires := fun _ => false }
      hload hctx]
    exact sampleFrames_noSeek q a { env with seekFires := fun _ => false }
      _ _ (fun _ => rfl) htaint _ _ _

/-- Instance of `c2_seek_timeout` at the concrete 2-second clip. -/
theorem c2_seek_timeout_witness :
    frameCount (createGifFromVideo qTriv aTriv envA)
        = Option.some (⌊(2 : ℚ) * (fps : ℚ)⌋.toNat)
      ∧ allFrames
          (createGifFromVideo qTriv aTriv
            { envA with seekFires := fun _ => false })
          (fun f => f.palette = qTriv envA.initialPresented 256
            ∧ f.index = aTriv envA.initialPresented
                (qTriv envA.initialPresented 256)) :=
  c2_seek_timeout qTriv aTriv envA 2 rfl rfl rfl rfl (by norm_num)

/-- C3: if the source clip fails to load (the error signal fires before
metadata resolves), `createGifFromVideo` rejects with the load-failure
error and produces no container. -/
theorem c3_load_failure (q : PixelBuf → ℕ → Palette)
    (a : PixelBuf → Palette → IndexBuf) (env : VideoEnv)
    (hload : env.loadFails = true) :
    createGifFromVideo q a env = Except.error GifError.loadFailure := by
  simp [createGifFromVideo, hload]

/-- Instance of `c3_load_failure` at the failing-load clip. -/
theorem c3_load_failure_witness :
    createGifFromVideo qTriv aTriv envLoadFail
      = Except.error GifError.loadFailure :=
  c3_load_failure qTriv aTriv envLoadFail rfl

/-- C4: the derived output height is always even (floor of the
aspect-preserving height, decremented by one if odd), and every frame of a
successful conversion has width `targetWidth = 400` and that even height. -/
theorem c4_dimensions (q : PixelBuf → ℕ → Palette)
    (a : PixelBuf → Palette → IndexBuf) (env : VideoEnv)
    (hload : env.loadFails = false) (hctx : env.ctxAvailable = true)
    (htaint : env.tainted = false) (hw : 0 < env.videoWidth) :
    2 ∣ outHeight env.videoWidth env.videoHeight
      ∧ targetWidth = 400
      ∧ allFrames (createGifFromVideo q a env)
          (fun f => f.width = targetWidth
            ∧ f.height = outHeight env.videoWidth env.videoHeight) := by
  refine ⟨evenize_even _, rfl, ?_⟩
  rw [createGifFromVideo_eq q a env hload hctx]
  exact sampleFrames_allFrames q a env _ _ _ (fun d => ⟨rfl, rfl⟩) htaint _ _ _

/-- Instance of `c4_dimensions` at the concrete 320×180 clip. -/
theorem c4_dimensions_witness :
    2 ∣ outHeight envA.videoWidth envA.videoHeight
      ∧ targetWidth = 400
      ∧ allFrames (createGifFromVideo qTriv aTriv envA)
          (fun f => f.width = targetWidth
            ∧ f.height = outHeight envA.videoWidth envA.videoHeight) :=
  c4_dimensions qTriv aTriv envA rfl rfl rfl (by decide)

/-- C5: each frame is quantized independently with a target palette size of
exactly 256: every appended frame carries a palette freshly computed from
that frame's own pixel data `d` by `quantize d 256` (no palette is shared
across frames), with the matching index buffer; and provided the quantizer
respects its
size bound, every per-frame palette has at most 256 entries. -/
theorem c5_per_frame_palette (q : PixelBuf → ℕ → Palette)
    (a : PixelBuf → Palette → IndexBuf) (env : VideoEnv)
    (hload : env.loadFails = false) (hctx : env.ctxAvailable = true)
    (htaint : env.tainted = false)
    (hq : ∀ d : PixelBuf, (q d 256).length ≤ 256) :
    allFrames (createGifFromVideo q a env)
      (fun f => f.palette.length ≤ 256
        ∧ ∃ d : PixelBuf, f.palette = q d 256 ∧ f.index = a d (q d 256)) := by
  rw [createGifFromVideo_eq q a env hload hctx]
  exact sampleFrames_allFrames q a env _ _ _
    (fun d => ⟨hq d, d, rfl, rfl⟩) htaint _ _ _

/-- Instance of `c5_per_frame_palette` at the concrete clip. -/
theorem c5_per_frame_palette_witness :
    allFrames (createGifFromVideo qTriv aTriv envA)
      (fun f => f.palette.length ≤ 256
        ∧ ∃ d : PixelBuf, f.palette = qTriv d 256
            ∧ f.index = aTriv d (qTriv d 256)) :=
  c5_per_frame_palette qTriv aTriv envA rfl rfl rfl
    (fun _ => by simp [qTriv])

/-- C6: every appended frame carries the same delay `1000 / fps`
milliseconds, which at the fixed `fps = 10` is 100 ms, constant across the
whole container. -/
theorem c6_constant_delay (q : PixelBuf → ℕ → Palette)
    (a : PixelBuf → Palette → IndexBuf) (env : VideoEnv)
    (hload : env.loadFails = false) (hctx : env.ctxAvailable = true)
    (htaint : env.tainted = false) :
    allFrames (createGifFromVideo q a env)
        (fun f => f.delay = (1000 : ℚ) / (fps : ℚ))
      ∧ (1000 : ℚ) / (fps : ℚ) = 100 := by
  refine ⟨?_, by norm_num [fps]⟩
  rw [createGifFromVideo_eq q a env hload hctx]
  exact sampleFrames_allFrames q a env _ _
    (fun f => f.delay = (1000 : ℚ) / (fps : ℚ)) (fun d => rfl) htaint _ _ _

/-- Instance of `c6_constant_delay` at the concrete clip. -/
theorem c6_constant_delay_witness :
    allFrames (createGifFromVideo qTriv aTriv envA)
        (fun f => f.delay = (1000 : ℚ) / (fps : ℚ))
      ∧ (1000 : ℚ) / (fps : ℚ) = 100 :=
  c6_constant_delay qTriv aTriv envA rfl rfl rfl

/-- C7: when the clip violates the cross-origin-readable precondition,
pixel extraction fails and the conversion rejects with the security error,
which is distinct from the load-failure error, so the caller can tell the
two failure classes apart.  (The clip must be long enough that at least one
frame is extracted: `D ≥ 1/fps`.) -/
theorem c7_security_failure (q : PixelBuf → ℕ → Palette)
    (a : PixelBuf → Palette → IndexBuf) (env : VideoEnv) (D : ℚ)
    (hload : env.loadFails = false) (hctx : env.ctxAvailable = true)
    (htaint : env.tainted = true) (hdur : env.durationRaw = Option.some D)
    (hD : (1 : ℚ) / 10 ≤ D) :
    createGifFromVideo q a env = Except.error GifError.securityFailure
      ∧ GifError.securityFailure ≠ GifError.loadFailure := by
  refine ⟨?_, by decide⟩
  have hD0 : D ≠ 0 := by
    intro h
    rw [h] at hD
    norm_num at hD
  have hjs : jsDurationOr5 env.durationRaw = D := by
    rw [hdur]
    simp [jsDurationOr5, hD0]
  rw [createGifFromVideo_eq q a env hload hctx, hjs]
  apply sampleFrames_tainted q a env _ _ htaint
  have h1 : (1 : ℚ) ≤ D * (fps : ℚ) := by
    have hf : (fps : ℚ) = 10 := by norm_num [fps]
    rw [hf]
    linarith
  have h2 : (1 : ℤ) ≤ ⌊D * (fps : ℚ)⌋ := Int.le_floor.mpr (by push_cast; linarith)
  omega

/-- Instance of `c7_security_failure` at the tainted clip. -/
theorem c7_security_failure_witness :
    createGifFromVideo qTriv aTriv envTainted
        = Except.error GifError.securityFailure
      ∧ GifError.securityFailure ≠ GifError.loadFailure :=
  c7_security_failure qTriv aTriv envTainted 2 rfl rfl rfl rfl (by norm_num)

/-- C8: `pollForVideo` resolves only when the operation reports a terminal
state (`done`), and only within the 180000 ms ceiling (the done-flag is
consulted at elapsed times `5000·k` for `k ≤ 37` only); if the operation
never reaches a terminal state in that window, it fails with the timed-out
error rather than polling forever (the fuel bound is never hit). -/
theorem c8_poll_ceiling (done : ℕ → Bool) :
    (∀ j, pollForVideo done = Except.ok j → done j = true ∧ j ≤ 37)
      ∧ ((∀ j, j ≤ 37 → done j = false) →
          pollForVideo done = Except.error PollError.timedOut)
      ∧ pollForVideo done ≠ Except.error PollError.fuelExhausted :=
  pollForVideoAux_spec done 38 0 (by omega) (by omega)

/-- Instance of `c8_poll_ceiling`: an operation that never finishes makes
`pollForVideo` fail with the timed-out error. -/
theorem c8_poll_ceiling_witness :
    pollForVideo (fun _ => false) = Except.error PollError.timedOut :=
  (c8_poll_ceiling (fun _ => false)).2.1 (fun _ _ => rfl)

/-- C9: two runs of the conversion on the same deterministic clip — even
with quantizer instances that may break ties differently, as long as they
agree on palette sizes — yield containers with identical frame count and
identical per-frame palette sizes, and both runs do produce a container. -/
theorem c9_two_run_determinism (q1 q2 : PixelBuf → ℕ → Palette)
    (a1 a2 : PixelBuf → Palette → IndexBuf) (env : VideoEnv)
    (hload : env.loadFails = false) (hctx : env.ctxAvailable = true)
    (htaint : env.tainted = false)
    (hq : ∀ d : PixelBuf, (q1 d 256).length = (q2 d 256).length) :
    frameCount (createGifFromVideo q1 a1 env)
        = frameCount (createGifFromVideo q2 a2 env)
      ∧ paletteSizes (createGifFromVideo q1 a1 env)
        = paletteSizes (createGifFromVideo q2 a2 env)
      ∧ paletteSizes (createGifFromVideo q1 a1 env) ≠ Option.none := by
  rw [createGifFromVideo_eq q1 a1 env hload hctx,
    createGifFromVideo_eq q2 a2 env hload hctx]
  refine ⟨?_, sampleFrames_paletteSizes q1 q2 a1 a2 env _ _ htaint hq _ _ _,
    paletteSizes_ne_none _ _ (sampleFrames_frameCount q1 a1 env _ _ htaint _ _ _)⟩
  rw [sampleFrames_frameCount q1 a1 env _ _ htaint,
    sampleFrames_frameCount q2 a2 env _ _ htaint]

/-- Instance of `c9_two_run_determinism` at the concrete clip. -/
theorem c9_two_run_determinism_witness :
    frameCount (createGifFromVideo qTriv aTriv envA)
        = frameCount (createGifFromVideo qTriv aTriv envA)
      ∧ paletteSizes (createGifFromVideo qTriv aTriv envA)
        = paletteSizes (createGifFromVideo qTriv aTriv envA)
      ∧ paletteSizes (createGifFromVideo qTriv aTriv envA) ≠ Option.none :=
  c9_two_run_determinism qTriv qTriv aTriv aTriv envA rfl rfl rfl
    (fun _ => rfl)

/-- C10: a clip whose reported duration is falsy (`NaN` or `0`) is
converted with the substituted duration 5 s: the container holds
`⌊5 * fps⌋ = 50` frames, not the `⌊0 * fps⌋ = 0` the reported duration
would give. -/
theorem c10_falsy_duration (q : PixelBuf → ℕ → Palette)
    (a : PixelBuf → Palette → IndexBuf) (env : VideoEnv)
    (hload : env.loadFails = false) (hctx : env.ctxAvailable = true)
    (htaint : env.tainted = false)
    (hdur : env.durationRaw = Option.none
      ∨ env.durationRaw = Option.some 0) :
    frameCount (createGifFromVideo q a env) = Option.some 50
      ∧ (50 : ℕ) ≠ (⌊(0 : ℚ) * (fps : ℚ)⌋.toNat) := by
  have hjs : jsDurationOr5 env.durationRaw = 5 := by
    rcases hdur with h | h <;> rw [h] <;> simp [jsDurationOr5]
  refine ⟨?_, by norm_num⟩
  rw [createGifFromVideo_eq q a env hload hctx, hjs,
    sampleFrames_frameCount q a env _ _ htaint]
  norm_num [fps]
  decide

/-- Instance of `c10_falsy_duration` at the `NaN`-duration clip. -/
theorem c10_falsy_duration_witness :
    frameCount (createGifFromVideo qTriv aTriv envNaN) = Option.some 50
      ∧ (50 : ℕ) ≠ (⌊(0 : ℚ) * (fps : ℚ)⌋.toNat) :=
  c10_falsy_duration qTriv aTriv envNaN rfl rfl rfl (Or.inl rfl)

end TypeMotion
